import Mathlib

/-!
Verification of the dual-stream frame acquisition engine of the Acquire
device adapter (`DeviceAdapters/Acquire/AcquireCamera.cpp`).

The shallow embedding models the driver boundary explicitly: each stream is a
sequence of map-read results (one `MappedRange` per map attempt), the mapped
ring-buffer memory is a function from byte offset to the `VideoFrame` header
the code would read there, and the downstream circular buffer is an oracle
giving the status of each `InsertImage` call in order.  Reads, inserts, buffer
clears and unmap calls are recorded as explicit traces so that the spec's
claims about them can be stated.
-/

namespace Acquire

/-- Modelled from the spec: the host's `DEVICE_OK` status (the value 0 is
what `readSnapImageFrames`/`readLiveFrames` return on success). -/
def DEVICE_OK : Nat := 0

/-- Modelled from the spec: the host's code for an insert that failed because
the downstream circular buffer is full (`DEVICE_BUFFER_OVERFLOW`); the header
defining the numeral is not part of the acquisition core, only its
distinctness from other codes matters. -/
def DEVICE_BUFFER_OVERFLOW : Nat := 22

/-- Modelled from the spec: the adapter's `ERR_TIMEOUT` code (retry bound
exceeded waiting for frames); numeral private to the adapter header. -/
def ERR_TIMEOUT : Nat := 107

/-- Modelled from the spec: the adapter's `ERR_INVALID_CAMERA_SELECTION`
code; numeral private to the adapter header. -/
def ERR_INVALID_CAMERA_SELECTION : Nat := 110

/-- Modelled from the spec: a raw frame header (`VideoFrame` in the driver's
header, which is not part of this repository) carries a per-stream
`frame_id`, a hardware timestamp and `bytes_of_frame`, the byte length of the
whole frame (header plus pixel payload); the payload follows the header. -/
structure VideoFrame where
  frame_id : Nat
  hwTimestamp : Nat
  bytes_of_frame : Nat
deriving DecidableEq

/-- One result of `cpx_map_read` on one stream: `hdr off` is the frame header
the code would read at byte offset `off` past `beg`, and `byteLen` is
`ConsumedBytes(beg, end)`, the byte length of the mapped range.  The range is
empty (`beg == end`) exactly when `byteLen = 0`. -/
structure MappedRange where
  hdr : Nat → VideoFrame
  byteLen : Nat

/-- A mapped range standing for a null `beg`/`end` pair (stream 1 when the
second camera is not in use). -/
def emptyRange : MappedRange :=
  { hdr := fun _ => ⟨0, 0, 0⟩, byteLen := 0 }

/-- `maxRetries` of the polling loops in `readSnapImageFrames` and
`readLiveFrames` (1000 retries at 5 ms spacing). -/
def maxRetries : Nat := 1000

/-- The retry loop of the Stream Reader.  `avail n` is the byte length the
`n`-th `cpx_map_read` call would return (attempt 0 is the map issued before
the loop).  `pollCount avail r fuel` is the final value of `retries` when the
loop is entered with `retries = r`, the current range being attempt `r`, and
`fuel = maxRetries - r` iterations remaining; the loop body re-issues the map
and increments `retries`. -/
def pollCount (avail : Nat → Nat) : Nat → Nat → Nat
  | r, 0 => r
  | r, fuel + 1 => if avail r = 0 then pollCount avail (r + 1) fuel else r

/-- Final value of `retries` after the polling loop (`retries` starts at 0,
the loop runs while the current range is empty and `retries < maxRetries`).
The code then returns `ERR_TIMEOUT` iff `maxRetries ≤ pollCount`; on success
the range in hand is attempt number `pollCount`. -/
def pollRetries (avail : Nat → Nat) : Nat :=
  pollCount avail 0 maxRetries

/-- A downstream-sink action performed while delivering one batch: an
`InsertImage` of buffer `buf` carrying frame id `fid` in its metadata, or a
`ClearImageBuffer`. -/
inductive Ev where
  | insert (buf : Nat) (fid : Nat)
  | clear
deriving DecidableEq

/-- Delivery of one composited frame in single-channel mode
(`readLiveFrames`, `else` branch of `if (multiChannel)`): insert
`imgs[currentCamera]`; if the insert overflowed and `stopOnOverflow` is
false, clear the downstream buffer and re-issue the same insert once, its
status discarded.  `ins j` is the status of the `j`-th insert call of the
cycle; `k` is the index of the next call; the second component is the index
after this frame. -/
def sinkSingle (sOO : Bool) (ins : Nat → Nat) (cur fid k : Nat) : List Ev × Nat :=
  if !sOO && (ins k == DEVICE_BUFFER_OVERFLOW) then
    ([Ev.insert cur fid, Ev.clear, Ev.insert cur fid], k + 2)
  else
    ([Ev.insert cur fid], k + 1)

/-- Delivery of one composited frame in multi-channel mode (`readLiveFrames`,
`for (int bufNum = 0; bufNum < imgs.size(); bufNum++)`): insert each buffer
in order; if an insert overflowed and `stopOnOverflow` is false, clear the
downstream buffer and `break` (remaining buffers skipped, no retry).
Arguments after `fid`: next insert-call index `k`, current `bufNum`, number
of buffers remaining. -/
def sinkMulti (sOO : Bool) (ins : Nat → Nat) (fid : Nat) : Nat → Nat → Nat → List Ev × Nat
  | k, _, 0 => ([], k)
  | k, bufNum, r + 1 =>
    if !sOO && (ins k == DEVICE_BUFFER_OVERFLOW) then
      ([Ev.insert bufNum fid, Ev.clear], k + 1)
    else
      let rest := sinkMulti sOO ins fid (k + 1) (bufNum + 1) r
      (Ev.insert bufNum fid :: rest.1, rest.2)

/-- Context of the per-batch loop of `readLiveFrames`, fixed once both maps
have succeeded: `sizeofVF` is `sizeof(VideoFrame)`, `hdr0`/`hdr1` the mapped
memory of the two streams, `s1`/`s2` the values of `beg1->bytes_of_frame` and
`beg2->bytes_of_frame`, `startFrameId` the value of `beg1->frame_id`. -/
structure BatchCtx where
  sizeofVF : Nat
  dual : Bool
  multiChannel : Bool
  stopOnOverflow : Bool
  currentCamera : Nat
  numBufs : Nat
  ins : Nat → Nat
  hdr0 : Nat → VideoFrame
  hdr1 : Nat → VideoFrame
  s1 : Nat
  s2 : Nat
  startFrameId : Nat

/-- Trace of one iteration of the frame loop: the `(byte offset, frame_id)`
pair composited into `imgs[0]` (resp. `imgs[1]` when dual), whether each
stream logged a missed-frame warning, the sink actions, and the index of the
next insert call. -/
structure IterOut where
  comp0 : Nat × Nat
  comp1 : Option (Nat × Nat)
  w0 : Nat
  w1 : Nat
  sink : List Ev
  kNext : Nat

/-- One iteration `i` of the frame loop of `readLiveFrames`.  The source
advances the frame cursor with `ptr1 += beg1->bytes_of_frame` where `ptr1`
is a `VideoFrame*`, so the byte offset of iteration `i` is
`i * (bytes_of_frame * sizeof(VideoFrame))`, not `i * bytes_of_frame`; the
embedding reproduces this pointer arithmetic exactly.  A frame id differing
from `startFrameId + i` is logged (the `return ERR_CPX_MISSED_FRAME` in the
source is commented out) and processing continues. -/
def liveIter (c : BatchCtx) (i k : Nat) : IterOut :=
  let off1 := i * (c.s1 * c.sizeofVF)
  let f1 := c.hdr0 off1
  let off2 := i * (c.s2 * c.sizeofVF)
  let f2 := c.hdr1 off2
  let w0 : Nat := if f1.frame_id = c.startFrameId + i then 0 else 1
  let w1 : Nat := if c.dual then (if f2.frame_id = c.startFrameId + i then 0 else 1) else 0
  let comp1 : Option (Nat × Nat) := if c.dual then some (off2, f2.frame_id) else none
  let s :=
    if c.multiChannel then sinkMulti c.stopOnOverflow c.ins f1.frame_id k 0 c.numBufs
    else sinkSingle c.stopOnOverflow c.ins c.currentCamera f1.frame_id k
  { comp0 := (off1, f1.frame_id), comp1 := comp1, w0 := w0, w1 := w1,
    sink := s.1, kNext := s.2 }

/-- Accumulated trace of the frame loop. -/
structure LoopOut where
  comps0 : List (Nat × Nat)
  comps1 : List (Nat × Nat)
  w0 : Nat
  w1 : Nat
  sink : List Ev
  kEnd : Nat

/-- The frame loop `for (size_t i = 0; i < numFrames; i++)` of
`readLiveFrames`; arguments are the current index `i`, the next insert-call
index `k` and the number of iterations remaining. -/
def liveLoop (c : BatchCtx) : Nat → Nat → Nat → LoopOut
  | _, k, 0 => { comps0 := [], comps1 := [], w0 := 0, w1 := 0, sink := [], kEnd := k }
  | i, k, r + 1 =>
    let o := liveIter c i k
    let rest := liveLoop c (i + 1) o.kNext r
    { comps0 := o.comp0 :: rest.comps0,
      comps1 := o.comp1.toList ++ rest.comps1,
      w0 := o.w0 + rest.w0,
      w1 := o.w1 + rest.w1,
      sink := o.sink ++ rest.sink,
      kEnd := rest.kEnd }

/-- Environment of one `readLiveFrames` call: `sizeof(VideoFrame)`, the
camera-mode flags of the adapter, the per-stream map-attempt sequences and
the downstream insert oracle. -/
structure LiveEnv where
  sizeofVF : Nat
  dual : Bool
  multiChannel : Bool
  stopOnOverflow : Bool
  currentCamera : Nat
  numBufs : Nat
  att0 : Nat → MappedRange
  att1 : Nat → MappedRange
  ins : Nat → Nat

/-- Byte lengths of the successive map attempts on stream 0. -/
def avail0 (e : LiveEnv) : Nat → Nat := fun n => (e.att0 n).byteLen

/-- Byte lengths of the successive map attempts on stream 1. -/
def avail1 (e : LiveEnv) : Nat → Nat := fun n => (e.att1 n).byteLen

/-- Observable outcome of one `readLiveFrames` call: the returned status,
`framesRead`, the composited `(byte offset, frame_id)` pairs per channel,
the missed-frame warning counts, the sink actions and the
`(stream, bytesConsumed)` pairs passed to `cpx_unmap_read`. -/
structure LiveResult where
  status : Nat
  framesRead : Nat
  comps0 : List (Nat × Nat)
  comps1 : List (Nat × Nat)
  w0 : Nat
  w1 : Nat
  sink : List Ev
  unmaps : List (Nat × Nat)
deriving DecidableEq

/-- Result of a `return ERR_TIMEOUT` exit: nothing composited, nothing
unmapped. -/
def timeoutResult : LiveResult :=
  { status := ERR_TIMEOUT, framesRead := 0, comps0 := [], comps1 := [],
    w0 := 0, w1 := 0, sink := [], unmaps := [] }

/-- Batch context assembled by `readLiveFrames` after both maps succeeded:
`s1 = beg1->bytes_of_frame`, `s2 = beg2->bytes_of_frame`,
`startFrameId = beg1->frame_id`. -/
def liveCtx (e : LiveEnv) (range0 range1 : MappedRange) : BatchCtx :=
  { sizeofVF := e.sizeofVF, dual := e.dual, multiChannel := e.multiChannel,
    stopOnOverflow := e.stopOnOverflow, currentCamera := e.currentCamera,
    numBufs := e.numBufs, ins := e.ins, hdr0 := range0.hdr, hdr1 := range1.hdr,
    s1 := (range0.hdr 0).bytes_of_frame, s2 := (range1.hdr 0).bytes_of_frame,
    startFrameId := (range0.hdr 0).frame_id }

/-- Tail of `readLiveFrames` once the batch size is known: run the frame
loop, then `cpx_unmap_read(cpx, 0, numFrames * beg1->bytes_of_frame)` and,
in dual mode (`beg2` non-null), the same on stream 1. -/
def liveDeliver (e : LiveEnv) (range0 range1 : MappedRange) (numFrames : Nat) : LiveResult :=
  let c := liveCtx e range0 range1
  let o := liveLoop c 0 0 numFrames
  { status := DEVICE_OK, framesRead := numFrames,
    comps0 := o.comps0, comps1 := o.comps1, w0 := o.w0, w1 := o.w1,
    sink := o.sink,
    unmaps := (0, numFrames * (range0.hdr 0).bytes_of_frame) ::
      (if e.dual then [(1, numFrames * (range1.hdr 0).bytes_of_frame)] else []) }

/-- `AcquireCamera::readLiveFrames`: poll stream 0 (timeout aborts the cycle
with nothing unmapped); compute `numFrames1 = ConsumedBytes / bytes_of_frame`;
in dual mode poll stream 1 the same way (a timeout here also leaves stream 0
mapped) and take `numFrames = min(numFrames1, numFrames2)`, otherwise
`numFrames = numFrames1`; deliver the batch and unmap. -/
def readLiveFrames (e : LiveEnv) : LiveResult :=
  let r0 := pollRetries (avail0 e)
  if maxRetries ≤ r0 then timeoutResult
  else
    let range0 := e.att0 r0
    let numFrames1 := range0.byteLen / (range0.hdr 0).bytes_of_frame
    if e.dual then
      let r1 := pollRetries (avail1 e)
      if maxRetries ≤ r1 then timeoutResult
      else
        let range1 := e.att1 r1
        let numFrames2 := range1.byteLen / (range1.hdr 0).bytes_of_frame
        liveDeliver e range0 range1 (min numFrames1 numFrames2)
    else
      liveDeliver e range0 emptyRange numFrames1

/-- Environment of one `readSnapImageFrames` call: map-attempt sequences of
the two streams, `sizeof(VideoFrame)` and `imgs.size()`. -/
structure SnapEnv where
  att0 : Nat → MappedRange
  att1 : Nat → MappedRange
  sizeofVF : Nat
  numBufs : Nat

/-- Observable outcome of one `readSnapImageFrames` call: status, the
`(buffer, byte offset)` pairs of the frames composited (always offset 0, the
first frame of the range), and the `(stream, bytesConsumed)` pairs passed to
`cpx_unmap_read`. -/
structure SnapResult where
  status : Nat
  comps : List (Nat × Nat)
  unmaps : List (Nat × Nat)
deriving DecidableEq

/-- `2^32`, the modulus of the explicit `(uint32_t)` cast the snap path
applies to `ConsumedBytes(beg, end)` before unmapping. -/
def UINT32_MOD : Nat := 2 ^ 32

/-- `AcquireCamera::readSnapImageFrames`: poll stream 0, copy the first
frame's payload into `imgs[0]`, then unmap with
`uint32_t n = (uint32_t)ConsumedBytes(beg, end)` — the byte length of the
whole mapped range, however many frames it holds, truncated to 32 bits by
the cast.  If `imgs.size() > 1`, do the same on stream 1. -/
def readSnapImageFrames (se : SnapEnv) : SnapResult :=
  let r0 := pollRetries (fun n => (se.att0 n).byteLen)
  if maxRetries ≤ r0 then { status := ERR_TIMEOUT, comps := [], unmaps := [] }
  else
    let range0 := se.att0 r0
    let c0 : List (Nat × Nat) := [(0, 0)]
    let u0 : List (Nat × Nat) := [(0, range0.byteLen % UINT32_MOD)]
    if 1 < se.numBufs then
      let r1 := pollRetries (fun n => (se.att1 n).byteLen)
      if maxRetries ≤ r1 then { status := ERR_TIMEOUT, comps := c0, unmaps := u0 }
      else
        let range1 := se.att1 r1
        { status := DEVICE_OK, comps := c0 ++ [(1, 0)],
          unmaps := u0 ++ [(1, range1.byteLen % UINT32_MOD)] }
    else
      { status := DEVICE_OK, comps := c0, unmaps := u0 }

/-- Number of `ClearImageBuffer` calls in a sink trace. -/
def clearCount : List Ev → Nat
  | [] => 0
  | Ev.clear :: rest => clearCount rest + 1
  | Ev.insert _ _ :: rest => clearCount rest

/-- The map result stream 0 ends up with when its poll succeeds. -/
def finalRange0 (e : LiveEnv) : MappedRange := e.att0 (pollRetries (avail0 e))

/-- The map result stream 1 ends up with when its poll succeeds. -/
def finalRange1 (e : LiveEnv) : MappedRange := e.att1 (pollRetries (avail1 e))

/-- `beg1->bytes_of_frame` of the successful stream-0 map. -/
def frameStride0 (e : LiveEnv) : Nat := ((finalRange0 e).hdr 0).bytes_of_frame

/-- `beg2->bytes_of_frame` of the successful stream-1 map. -/
def frameStride1 (e : LiveEnv) : Nat := ((finalRange1 e).hdr 0).bytes_of_frame

/-- `numFrames1 = ConsumedBytes(beg1, end1) / beg1->bytes_of_frame`. -/
def framesAvailable0 (e : LiveEnv) : Nat := (finalRange0 e).byteLen / frameStride0 e

/-- `numFrames2 = ConsumedBytes(beg2, end2) / beg2->bytes_of_frame`. -/
def framesAvailable1 (e : LiveEnv) : Nat := (finalRange1 e).byteLen / frameStride1 e

/-- The batch size `numFrames` of one streaming cycle. -/
def liveBatchSize (e : LiveEnv) : Nat :=
  if e.dual then min (framesAvailable0 e) (framesAvailable1 e) else framesAvailable0 e

/-- Modelled from the spec: `g_Camera_None`, the sentinel name of an
unselected camera slot (defined in the adapter header, not in the core);
only its role as a distinguished constant matters. -/
def g_Camera_None : String := "None"

/-- Character-list prefix test (explicit so that kernel evaluation on
concrete names is direct). -/
def strStarts : List Char → List Char → Bool
  | [], _ => true
  | _ :: _, [] => false
  | a :: ps, b :: ss => a == b && strStarts ps ss

/-- `name.rfind("simulated", 0) == 0`: the camera name starts with
`"simulated"`. -/
def isSimulatedName (s : String) : Bool := strStarts "simulated".data s.data

/-- Camera-selection validation of `AcquireCamera::Initialize` (lines
138-151): reject equal names, reject an unselected camera 1, and — only when
camera 1 is simulated — reject a camera 2 that is neither `None` nor
simulated.  On success the returned flag is the `demo` mode. -/
def validateCameraSelection (camera1 camera2 : String) : Except Nat Bool :=
  if camera1 = camera2 then Except.error ERR_INVALID_CAMERA_SELECTION
  else if camera1 = g_Camera_None then Except.error ERR_INVALID_CAMERA_SELECTION
  else if isSimulatedName camera1 then
    (if camera2 ≠ g_Camera_None ∧ isSimulatedName camera2 = false then
      Except.error ERR_INVALID_CAMERA_SELECTION
    else Except.ok true)
  else Except.ok false

/-- `MAXUINT64`, the maximum representable 64-bit frame count. -/
def MAXUINT64 : Nat := 2 ^ 64 - 1

/-- Conversion of a C `long` value to `uint64_t` (reduction modulo `2^64`). -/
def toUInt64Nat (n : Int) : Nat := (n % (2 : Int) ^ 64).toNat

/-- `props.video[i].max_frame_count = numImages == 0 ? MAXUINT64 : numImages`
in `AcquireCamera::StartSequenceAcquisition`. -/
def maxFrameCountOf (numImages : Int) : Nat :=
  if numImages = 0 then MAXUINT64 else toUInt64Nat numImages

/-- The pair of per-stream target frame counts set by
`StartSequenceAcquisition` (video[0] and video[1]). -/
def startSequenceTargets (numImages : Int) : Nat × Nat :=
  (maxFrameCountOf numImages, maxFrameCountOf numImages)

/-- `2^64`, the modulus of `size_t` arithmetic on the 64-bit target. -/
def SIZE_T_MOD : Nat := 2 ^ 64

/-- `AcquireCamera::setupBuffers`: `imgs.resize(2)` in dual mode,
`imgs.resize(1)` otherwise; returns the resulting `imgs.size()`. -/
def setupBuffersCount (dual : Bool) : Nat := if dual then 2 else 1

/-- `AcquireCamera::GetImageBuffer(unsigned channel)`: return `nullptr` when
`channel > imgs.size() - 1` (the subtraction is `size_t` arithmetic, hence
the modulus), else the pixels of `imgs[channel]` in multi-channel mode and of
`imgs[currentCamera]` otherwise.  The embedding returns the index of the
buffer whose pixels are returned, `none` for `nullptr`. -/
def GetImageBufferChannel (numImgs : Nat) (multiChannel : Bool)
    (currentCamera channel : Nat) : Option Nat :=
  if (numImgs + SIZE_T_MOD - 1) % SIZE_T_MOD < channel then none
  else if multiChannel then some channel else some currentCamera

/-! Concrete driver environments used to evaluate the embedded code.  The
frame stride is 1032 bytes (a 32-byte header — `sizeof(VideoFrame)` must at
least hold `frame_id`, the timestamps and `bytes_of_frame` — plus 1000
payload bytes); `hdrA` is ring memory holding contiguous frames whose ids
start at 100, i.e. the header read at byte offset `off` is that of frame
`100 + off / 1032`. -/

/-- Contiguous ring memory: frame `100 + k` sits at byte offset `k * 1032`. -/
def hdrA : Nat → VideoFrame := fun off => ⟨100 + off / 1032, 0, 1032⟩

/-- A mapped range holding 5 whole frames (ids 100–104). -/
def rangeA5 : MappedRange := { hdr := hdrA, byteLen := 5160 }

/-- A mapped range holding 3 whole frames (ids 100–102). -/
def rangeA3 : MappedRange := { hdr := hdrA, byteLen := 3096 }

/-- A mapped range holding 2 whole frames (ids 100–101). -/
def rangeA2 : MappedRange := { hdr := hdrA, byteLen := 2064 }

/-- Scenario A environment: dual streams, 5 contiguous frames available on
each from the first map, all inserts succeed. -/
def ce1 : LiveEnv :=
  { sizeofVF := 32, dual := true, multiChannel := true, stopOnOverflow := false,
    currentCamera := 0, numBufs := 2, att0 := fun _ => rangeA5,
    att1 := fun _ => rangeA5, ins := fun _ => DEVICE_OK }

/-- Scenario B environment: stream 0 has 5 frames, stream 1 has 3. -/
def ce4 : LiveEnv :=
  { sizeofVF := 32, dual := true, multiChannel := true, stopOnOverflow := false,
    currentCamera := 0, numBufs := 2, att0 := fun _ => rangeA5,
    att1 := fun _ => rangeA3, ins := fun _ => DEVICE_OK }

/-- Overflow environment: `stopOnOverflow` is true, 2 frames per stream, and
every `InsertImage` call reports `DEVICE_BUFFER_OVERFLOW`. -/
def ce5 : LiveEnv :=
  { sizeofVF := 32, dual := true, multiChannel := true, stopOnOverflow := true,
    currentCamera := 0, numBufs := 2, att0 := fun _ => rangeA2,
    att1 := fun _ => rangeA2, ins := fun _ => DEVICE_BUFFER_OVERFLOW }

/-- Ring memory whose frame ids are wrong everywhere but at offset 0. -/
def hdr8 : Nat → VideoFrame :=
  fun off => if off = 0 then ⟨100, 0, 1032⟩ else ⟨777, 0, 1032⟩

/-- Single-stream environment with 3 frames mapped and mismatched frame ids
after the first frame. -/
def ce8 : LiveEnv :=
  { sizeofVF := 32, dual := false, multiChannel := false, stopOnOverflow := false,
    currentCamera := 0, numBufs := 1, att0 := fun _ => { hdr := hdr8, byteLen := 3096 },
    att1 := fun _ => emptyRange, ins := fun _ => DEVICE_OK }

/-- Map-attempt byte lengths where the first frame becomes available exactly
on the 1000th retry (attempt index 1000) and never earlier. -/
def availLate : Nat → Nat := fun k => if k = 1000 then 1032 else 0

/-- Single-stream environment whose stream-0 maps follow `availLate`. -/
def ceLate : LiveEnv :=
  { sizeofVF := 32, dual := false, multiChannel := false, stopOnOverflow := false,
    currentCamera := 0, numBufs := 1,
    att0 := fun n => { hdr := hdrA, byteLen := availLate n },
    att1 := fun _ => emptyRange, ins := fun _ => DEVICE_OK }

/-- Single-stream environment on which no frame ever becomes available. -/
def ceZero : LiveEnv :=
  { sizeofVF := 32, dual := false, multiChannel := false, stopOnOverflow := false,
    currentCamera := 0, numBufs := 1, att0 := fun _ => { hdr := hdrA, byteLen := 0 },
    att1 := fun _ => emptyRange, ins := fun _ => DEVICE_OK }

/-- Snap environment: one buffer, first map already holds 2 whole frames. -/
def se2 : SnapEnv :=
  { att0 := fun _ => rangeA2, att1 := fun _ => emptyRange, sizeofVF := 32, numBufs := 1 }

/-- Snap environment: one buffer, first map holds exactly 1 frame. -/
def se2one : SnapEnv :=
  { att0 := fun _ => { hdr := hdrA, byteLen := 1032 }, att1 := fun _ => emptyRange,
    sizeofVF := 32, numBufs := 1 }

/-- A real (non-simulated, selected) camera-1 name. -/
def realName : String := "Hamamatsu C11440"

/-- A simulated camera name (as enumerated by the driver). -/
def simName : String := "simulated: radial sin"

/-- Insert oracle where every call overflows. -/
def insOverflow : Nat → Nat := fun _ => DEVICE_BUFFER_OVERFLOW

/-- Insert oracle where every call succeeds. -/
def insOk : Nat → Nat := fun _ => DEVICE_OK

/-! Helper lemmas about the polling loop. -/

theorem pollCount_le (avail : Nat → Nat) : ∀ fuel r, pollCount avail r fuel ≤ r + fuel := by
  intro fuel
  induction fuel with
  | zero => intro r; simp [pollCount]
  | succ f ih =>
    intro r
    simp only [pollCount]
    split
    · exact le_trans (ih (r + 1)) (by omega)
    · omega

theorem pollCount_exhaust_iff (avail : Nat → Nat) :
    ∀ fuel r, pollCount avail r fuel = r + fuel ↔ ∀ j, j < fuel → avail (r + j) = 0 := by
  intro fuel
  induction fuel with
  | zero => intro r; simp [pollCount]
  | succ f ih =>
    intro r
    simp only [pollCount]
    by_cases h : avail r = 0
    · rw [if_pos h, show r + (f + 1) = (r + 1) + f by omega, ih (r + 1)]
      constructor
      · intro hall j hj
        match j, hj with
        | 0, _ => simpa using h
        | j + 1, hj =>
          have hh := hall j (by omega)
          rwa [show r + (j + 1) = (r + 1) + j by omega]
      · intro hall j hj
        have hh := hall (j + 1) (by omega)
        rwa [show (r + 1) + j = r + (j + 1) by omega]
    · rw [if_neg h]
      constructor
      · intro he; exact absurd he (by omega)
      · intro hall
        exact ((h (by simpa using hall 0 (Nat.succ_pos f))).elim)

/-- The polling loop exhausts its retry budget — i.e. the code takes the
`retries >= maxRetries` timeout exit — exactly when attempts `0 … 999` (the
initial map and the first 999 retries) all came back empty.  The result of
the 1000th retry is made but never examined. -/
theorem pollTimeout_iff (avail : Nat → Nat) :
    maxRetries ≤ pollRetries avail ↔ ∀ k, k < maxRetries → avail k = 0 := by
  unfold pollRetries
  constructor
  · intro hle
    have hle2 := pollCount_le avail maxRetries 0
    have heq : pollCount avail 0 maxRetries = 0 + maxRetries := by omega
    intro k hk
    simpa using (pollCount_exhaust_iff avail maxRetries 0).mp heq k hk
  · intro hall
    have heq := (pollCount_exhaust_iff avail maxRetries 0).mpr
      (fun j hj => by simpa using hall j hj)
    omega

/-! Success-path normal forms of `readLiveFrames`. -/

theorem readLive_single (e : LiveEnv) (hd : e.dual = false)
    (h0 : pollRetries (avail0 e) < maxRetries) :
    readLiveFrames e = liveDeliver e (finalRange0 e) emptyRange (framesAvailable0 e) := by
  simp only [readLiveFrames, hd]
  rw [if_neg (Nat.not_le.mpr h0)]
  rfl

theorem readLive_dual (e : LiveEnv) (hd : e.dual = true)
    (h0 : pollRetries (avail0 e) < maxRetries)
    (h1 : pollRetries (avail1 e) < maxRetries) :
    readLiveFrames e =
      liveDeliver e (finalRange0 e) (finalRange1 e)
        (min (framesAvailable0 e) (framesAvailable1 e)) := by
  simp only [readLiveFrames, hd]
  rw [if_neg (Nat.not_le.mpr h0), if_neg (Nat.not_le.mpr h1)]
  rfl

/-! Helper lemmas about the frame loop and the sink. -/

theorem clearCount_append (l1 l2 : List Ev) :
    clearCount (l1 ++ l2) = clearCount l1 + clearCount l2 := by
  induction l1 with
  | nil => simp [clearCount]
  | cons a rest ih =>
    cases a with
    | insert b f => simp [clearCount, ih]
    | clear => simp [clearCount, ih]; omega

theorem liveLoop_comps0_len (c : BatchCtx) :
    ∀ r i k, (liveLoop c i k r).comps0.length = r := by
  intro r
  induction r with
  | zero => intro i k; rfl
  | succ n ih => intro i k; simp [liveLoop, ih]

theorem liveIter_comp1 (c : BatchCtx) (i k : Nat) :
    (liveIter c i k).comp1 =
      (if c.dual then some (i * (c.s2 * c.sizeofVF), (c.hdr1 (i * (c.s2 * c.sizeofVF))).frame_id)
       else none) := by
  simp [liveIter]

theorem liveLoop_comps1_len (c : BatchCtx) :
    ∀ r i k, (liveLoop c i k r).comps1.length = if c.dual then r else 0 := by
  intro r
  induction r with
  | zero => intro i k; cases hd : c.dual <;> simp [liveLoop]
  | succ n ih =>
    intro i k
    simp only [liveLoop, List.length_append, ih, liveIter_comp1]
    cases hd : c.dual
    · simp [hd]
    · simp [hd]; omega

theorem sinkSingle_noStop (ins : Nat → Nat) (cur fid k : Nat) :
    sinkSingle true ins cur fid k = ([Ev.insert cur fid], k + 1) := rfl

theorem sinkMulti_noStop (ins : Nat → Nat) (fid : Nat) :
    ∀ r k b, sinkMulti true ins fid k b r =
      ((List.range r).map (fun j => Ev.insert (b + j) fid), k + r) := by
  intro r
  induction r with
  | zero => intro k b; rfl
  | succ n ih =>
    intro k b
    simp only [sinkMulti, Bool.not_true, Bool.false_and, Bool.false_eq_true, if_false, ih]
    rw [List.range_succ_eq_map, List.map_cons, List.map_map]
    refine congrArg₂ Prod.mk ?_ (by omega)
    rw [Nat.add_zero]
    refine congrArg (List.cons _) (List.map_congr_left ?_)
    intro a _
    have hba : b + 1 + a = b + (a + 1) := by omega
    simp [Function.comp, hba]

theorem liveIter_clearCount (c : BatchCtx) (hs : c.stopOnOverflow = true) (i k : Nat) :
    clearCount (liveIter c i k).sink = 0 := by
  simp only [liveIter, hs]
  cases hm : c.multiChannel
  · simp [sinkSingle_noStop, clearCount]
  · simp only [if_pos rfl, sinkMulti_noStop]
    generalize (c.hdr0 (i * (c.s1 * c.sizeofVF))).frame_id = fid
    induction (List.range c.numBufs) with
    | nil => rfl
    | cons a rest ih => simpa [clearCount] using ih

theorem liveLoop_clearCount (c : BatchCtx) (hs : c.stopOnOverflow = true) :
    ∀ r i k, clearCount (liveLoop c i k r).sink = 0 := by
  intro r
  induction r with
  | zero => intro i k; rfl
  | succ n ih =>
    intro i k
    simp [liveLoop, clearCount_append, ih, liveIter_clearCount c hs]

theorem liveDeliver_fields (e : LiveEnv) (r0 r1 : MappedRange) (n : Nat) :
    (liveDeliver e r0 r1 n).status = DEVICE_OK ∧
    (liveDeliver e r0 r1 n).framesRead = n ∧
    (liveDeliver e r0 r1 n).comps0.length = n ∧
    (liveDeliver e r0 r1 n).comps1.length = (if e.dual then n else 0) ∧
    (liveDeliver e r0 r1 n).unmaps =
      (0, n * (r0.hdr 0).bytes_of_frame) ::
        (if e.dual then [(1, n * (r1.hdr 0).bytes_of_frame)] else []) := by
  refine ⟨rfl, rfl, ?_, ?_, rfl⟩
  · simpa [liveDeliver] using liveLoop_comps0_len (liveCtx e r0 r1) n 0 0
  · have h := liveLoop_comps1_len (liveCtx e r0 r1) n 0 0
    simpa [liveDeliver, liveCtx] using h

theorem liveDeliver_clearCount (e : LiveEnv) (r0 r1 : MappedRange) (n : Nat)
    (hs : e.stopOnOverflow = true) :
    clearCount (liveDeliver e r0 r1 n).sink = 0 := by
  have h := liveLoop_clearCount (liveCtx e r0 r1) (by simpa [liveCtx] using hs) n 0 0
  simpa [liveDeliver] using h

/-! Claim theorems. -/

/-- C1: evaluation of `readLiveFrames` at the Scenario A input (two streams,
5 contiguous frames each, ids 100–104 at byte offsets 0, 1032, …, 4128,
header size 32).  Because the source advances the cursor with
`ptr1 += beg1->bytes_of_frame` on a `VideoFrame*` — multiplying the step by
`sizeof(VideoFrame)` — the frames composited and inserted are read at byte
offsets `i * 1032 * 32`, i.e. frame ids 100, 132, 164, 196, 228 (offsets far
past the 5160-byte mapped range), not the claimed i-th contiguous frames at
offsets `i * frame_stride` with ids 100–104.  Four missed-frame warnings
fire per stream. -/
theorem pointerStride_bug_demo :
    (readLiveFrames ce1).framesRead = 5 ∧
    (readLiveFrames ce1).comps0 =
      [(0, 100), (33024, 132), (66048, 164), (99072, 196), (132096, 228)] ∧
    (readLiveFrames ce1).comps1 =
      [(0, 100), (33024, 132), (66048, 164), (99072, 196), (132096, 228)] ∧
    (readLiveFrames ce1).comps0 ≠
      [(0, 100), (1032, 101), (2064, 102), (3096, 103), (4128, 104)] ∧
    rangeA5.byteLen = 5160 ∧
    (readLiveFrames ce1).w0 = 4 ∧ (readLiveFrames ce1).w1 = 4 := by
  decide

/-- C2, counterexample: in the snap path with 2 whole frames mapped
(stride 1032, range byte length 2064), exactly one frame is composited but
`unmapRead` is passed the whole 2064 bytes, which differs from
`1 * frame_stride = 1032`. -/
theorem unmapBytes_snap_counterexample :
    (readSnapImageFrames se2).comps.length = 1 ∧
    (readSnapImageFrames se2).unmaps = [(0, 2064)] ∧
    ((se2.att0 0).hdr 0).bytes_of_frame = 1032 ∧
    2064 ≠ 1 * 1032 := by
  decide

/-- C2, amended: in the streaming path the bytes passed to `unmapRead` equal
the number of frames composited from that map times `beg->bytes_of_frame`,
for each active stream; in the snap path exactly one frame is composited per
stream while `unmapRead` is passed the byte length of the entire mapped
range truncated to 32 bits by the `(uint32_t)` cast (so the claimed equality
holds there only when the map holds exactly one frame whose length fits in
32 bits). -/
theorem unmapBytes_amended :
    (∀ e : LiveEnv, pollRetries (avail0 e) < maxRetries →
      (e.dual = true → pollRetries (avail1 e) < maxRetries) →
      (readLiveFrames e).comps0.length = liveBatchSize e ∧
      (readLiveFrames e).comps1.length = (if e.dual then liveBatchSize e else 0) ∧
      (readLiveFrames e).unmaps =
        (0, (readLiveFrames e).comps0.length * frameStride0 e) ::
          (if e.dual then [(1, (readLiveFrames e).comps1.length * frameStride1 e)] else [])) ∧
    (∀ se : SnapEnv, pollRetries (fun n => (se.att0 n).byteLen) < maxRetries →
      se.numBufs = 1 →
      (readSnapImageFrames se).comps = [(0, 0)] ∧
      (readSnapImageFrames se).unmaps =
        [(0, (se.att0 (pollRetries (fun n => (se.att0 n).byteLen))).byteLen % UINT32_MOD)]) := by
  constructor
  · intro e h0 h1
    cases hd : e.dual
    · rw [readLive_single e hd h0]
      obtain ⟨-, -, hc0, hc1, hu⟩ :=
        liveDeliver_fields e (finalRange0 e) emptyRange (framesAvailable0 e)
      refine ⟨?_, ?_, ?_⟩
      · rw [hc0]; simp [liveBatchSize, hd]
      · rw [hc1]; simp [hd]
      · rw [hu, hc0]; simp [hd, frameStride0]
    · rw [readLive_dual e hd h0 (h1 hd)]
      obtain ⟨-, -, hc0, hc1, hu⟩ :=
        liveDeliver_fields e (finalRange0 e) (finalRange1 e)
          (min (framesAvailable0 e) (framesAvailable1 e))
      refine ⟨?_, ?_, ?_⟩
      · rw [hc0]; simp [liveBatchSize, hd]
      · rw [hc1]; simp [liveBatchSize, hd]
      · rw [hu, hc0, hc1]; simp [hd, frameStride0, frameStride1]
  · intro se h0 hb
    simp only [readSnapImageFrames]
    rw [if_neg (Nat.not_le.mpr h0), hb]
    rw [if_neg (lt_irrefl 1)]
    exact ⟨rfl, rfl⟩

/-- C2, witness: the amended statement applied to a dual-stream cycle with 5
and 3 frames available and to a snap with exactly one mapped frame. -/
theorem unmapBytes_amended_witness :
    ((readLiveFrames ce4).comps0.length = liveBatchSize ce4 ∧
     (readLiveFrames ce4).comps1.length = (if ce4.dual then liveBatchSize ce4 else 0) ∧
     (readLiveFrames ce4).unmaps =
       (0, (readLiveFrames ce4).comps0.length * frameStride0 ce4) ::
         (if ce4.dual then [(1, (readLiveFrames ce4).comps1.length * frameStride1 ce4)] else [])) ∧
    ((readSnapImageFrames se2one).comps = [(0, 0)] ∧
     (readSnapImageFrames se2one).unmaps =
       [(0, (se2one.att0 (pollRetries (fun n => (se2one.att0 n).byteLen))).byteLen % UINT32_MOD)]) :=
  ⟨unmapBytes_amended.1 ce4 (by decide) (fun _ => by decide),
   unmapBytes_amended.2 se2one (by decide) rfl⟩

/-- C3, counterexample: on the attempt sequence where the first frame
becomes available exactly on the 1000th retry (attempt index 1000 — within
the claimed bound "on or before the 1000th retry"), the loop still exhausts
its budget and `readLiveFrames` returns `ERR_TIMEOUT`: the read does not
succeed, refuting the claimed iff. -/
theorem pollTimeout_counterexample :
    availLate 1000 ≠ 0 ∧
    maxRetries ≤ pollRetries availLate ∧
    (readLiveFrames ceLate).status = ERR_TIMEOUT := by
  have hall : ∀ k, k < maxRetries → availLate k = 0 := by
    intro k hk
    have hk2 : k ≠ 1000 := by
      simp only [maxRetries] at hk; omega
    simp [availLate, hk2]
  have hto : maxRetries ≤ pollRetries availLate := (pollTimeout_iff availLate).mpr hall
  refine ⟨by decide, hto, ?_⟩
  have hto2 : maxRetries ≤ pollRetries (avail0 ceLate) := hto
  simp only [readLiveFrames]
  rw [if_pos hto2]
  rfl

/-- C3, amended: the polling loop takes the `Timeout` exit iff zero frames
become available on the initial map and the first 999 retries (attempts
0 … 999); the map issued on the 1000th retry is never examined, so a frame
first appearing there still times out.  Equivalently, for a single-stream
cycle `readLiveFrames` returns `ERR_TIMEOUT` iff every map attempt below
`maxRetries` is empty. -/
theorem pollTimeout_amended :
    (∀ avail : Nat → Nat,
      maxRetries ≤ pollRetries avail ↔ ∀ k, k < maxRetries → avail k = 0) ∧
    (∀ e : LiveEnv, e.dual = false →
      ((readLiveFrames e).status = ERR_TIMEOUT ↔
        ∀ k, k < maxRetries → (e.att0 k).byteLen = 0)) := by
  refine ⟨pollTimeout_iff, ?_⟩
  intro e hd
  by_cases hle : maxRetries ≤ pollRetries (avail0 e)
  · constructor
    · intro _
      exact fun k hk => (pollTimeout_iff (avail0 e)).mp hle k hk
    · intro _
      simp only [readLiveFrames]
      rw [if_pos hle]
      rfl
  · have hlt : pollRetries (avail0 e) < maxRetries := Nat.lt_of_not_le hle
    rw [readLive_single e hd hlt]
    constructor
    · intro hco
      have hco2 : DEVICE_OK = ERR_TIMEOUT := hco
      exact absurd hco2 (by decide)
    · intro hall
      exact ((hle ((pollTimeout_iff (avail0 e)).mpr fun k hk => hall k hk)).elim)

/-- C3, witness: the amended statement applied to the stream on which no
frame ever arrives: the loop exhausts its budget and the single-stream read
reports `ERR_TIMEOUT`. -/
theorem pollTimeout_amended_witness :
    maxRetries ≤ pollRetries (avail0 ceZero) ∧
    (readLiveFrames ceZero).status = ERR_TIMEOUT :=
  ⟨(pollTimeout_amended.1 (avail0 ceZero)).mpr (fun _ _ => rfl),
   (pollTimeout_amended.2 ceZero rfl).mpr (fun _ _ => rfl)⟩

/-- C4: one streaming read cycle delivers `framesRead` equal to
`min(available_1, available_2)` in dual-stream mode and to `available_1` in
single-stream mode, where `available = byteLength / frame_stride` of the
successful map of each stream. -/
theorem batchSize_min (e : LiveEnv)
    (h0 : pollRetries (avail0 e) < maxRetries)
    (h1 : e.dual = true → pollRetries (avail1 e) < maxRetries) :
    (readLiveFrames e).framesRead =
      if e.dual then min (framesAvailable0 e) (framesAvailable1 e)
      else framesAvailable0 e := by
  cases hd : e.dual
  · rw [readLive_single e hd h0]
    rfl
  · rw [readLive_dual e hd h0 (h1 hd)]
    rfl

/-- C4, witness: Scenario B — 5 frames on stream 0, 3 on stream 1, batch
size 3. -/
theorem batchSize_min_witness :
    ((readLiveFrames ce4).framesRead =
      if ce4.dual then min (framesAvailable0 ce4) (framesAvailable1 ce4)
      else framesAvailable0 ce4) ∧
    (readLiveFrames ce4).framesRead = 3 :=
  ⟨batchSize_min ce4 (by decide) (fun _ => by decide), by decide⟩

/-- C5, counterexample: with `stopOnOverflow = true` and every insert
reporting `DEVICE_BUFFER_OVERFLOW`, the cycle still processes both frames,
performs all four inserts, never clears, and returns `DEVICE_OK`: the
overflow status is discarded and the loop continues instead of surfacing a
fatal condition. -/
theorem overflowStop_counterexample :
    ce5.stopOnOverflow = true ∧
    ce5.ins 0 = DEVICE_BUFFER_OVERFLOW ∧
    (readLiveFrames ce5).status = DEVICE_OK ∧
    (readLiveFrames ce5).framesRead = 2 ∧
    (readLiveFrames ce5).sink.length = 4 ∧
    clearCount (readLiveFrames ce5).sink = 0 := by
  decide

/-- C5, amended: when `stopOnOverflow` is true, `readLiveFrames` ignores the
insert statuses entirely — no clear is ever issued, the whole batch is
processed and the cycle returns `DEVICE_OK` regardless of how many inserts
overflow; no fatal condition is surfaced from this function. -/
theorem overflowStop_amended (e : LiveEnv) (hs : e.stopOnOverflow = true)
    (h0 : pollRetries (avail0 e) < maxRetries)
    (h1 : e.dual = true → pollRetries (avail1 e) < maxRetries) :
    (readLiveFrames e).status = DEVICE_OK ∧
    (readLiveFrames e).framesRead = liveBatchSize e ∧
    clearCount (readLiveFrames e).sink = 0 := by
  cases hd : e.dual
  · rw [readLive_single e hd h0]
    exact ⟨rfl, by simp [liveDeliver, liveBatchSize, hd],
      liveDeliver_clearCount e _ _ _ hs⟩
  · rw [readLive_dual e hd h0 (h1 hd)]
    exact ⟨rfl, by simp [liveDeliver, liveBatchSize, hd],
      liveDeliver_clearCount e _ _ _ hs⟩

/-- C5, witness: the amended statement at the all-overflow environment. -/
theorem overflowStop_amended_witness :
    (readLiveFrames ce5).status = DEVICE_OK ∧
    (readLiveFrames ce5).framesRead = liveBatchSize ce5 ∧
    clearCount (readLiveFrames ce5).sink = 0 :=
  overflowStop_amended ce5 rfl (by decide) (fun _ => by decide)

/-- C6, counterexample: a real (non-empty, non-simulated) camera 1 paired
with a simulated camera 2 is accepted by the validation (it returns
`demo = false`), whereas the claim says this mixed pair must be rejected
with `InvalidCameraSelection`. -/
theorem cameraSelection_counterexample :
    isSimulatedName realName = false ∧
    isSimulatedName simName = true ∧
    realName ≠ g_Camera_None ∧
    realName ≠ simName ∧
    validateCameraSelection realName simName = Except.ok false :=
  ⟨by decide, by decide, by decide, by decide, rfl⟩

/-- C6, amended: validation fails with `InvalidCameraSelection` exactly when
the two names are equal, camera 1 is the `None` sentinel, or camera 1 is
simulated while camera 2 is neither `None` nor simulated.  The
mixed-simulated check is asymmetric: a simulated camera 2 alongside a real
camera 1 is accepted. -/
theorem cameraSelection_amended (camera1 camera2 : String) :
    validateCameraSelection camera1 camera2 = Except.error ERR_INVALID_CAMERA_SELECTION ↔
      (camera1 = camera2 ∨ camera1 = g_Camera_None ∨
        (isSimulatedName camera1 = true ∧ camera2 ≠ g_Camera_None ∧
          isSimulatedName camera2 = false)) := by
  unfold validateCameraSelection
  split_ifs with h1 h2 h3 h4
  · exact iff_of_true rfl (Or.inl h1)
  · exact iff_of_true rfl (Or.inr (Or.inl h2))
  · exact iff_of_true rfl (Or.inr (Or.inr ⟨h3, h4.1, h4.2⟩))
  · constructor
    · intro hcon
      exact absurd hcon (by simp)
    · rintro (hc | hc | ⟨_, hne, hf⟩)
      · exact absurd hc h1
      · exact absurd hc h2
      · exact absurd ⟨hne, hf⟩ h4
  · constructor
    · intro hcon
      exact absurd hcon (by simp)
    · rintro (hc | hc | ⟨hsim, _, _⟩)
      · exact absurd hc h1
      · exact absurd hc h2
      · exact absurd hsim h3

/-- C7: in single-channel mode with `stopOnOverflow` false, an insert that
reports `DEVICE_BUFFER_OVERFLOW` is followed by exactly one buffer clear and
exactly one re-issued insert of the same frame — and by nothing else, no
matter what the retry reports (the next call index is `k + 2` and the trace
is fixed); an insert with any other status (success or a different failure)
is never retried. -/
theorem singleChannel_retry_once (ins : Nat → Nat) (cur fid k : Nat) :
    (ins k = DEVICE_BUFFER_OVERFLOW →
      sinkSingle false ins cur fid k =
        ([Ev.insert cur fid, Ev.clear, Ev.insert cur fid], k + 2)) ∧
    (ins k ≠ DEVICE_BUFFER_OVERFLOW →
      sinkSingle false ins cur fid k = ([Ev.insert cur fid], k + 1)) := by
  constructor
  · intro h
    simp [sinkSingle, h]
  · intro h
    simp [sinkSingle, beq_iff_eq, h]

/-- C7, witness: the overflow oracle produces insert–clear–insert and the
success oracle produces a single insert. -/
theorem singleChannel_retry_once_witness :
    sinkSingle false insOverflow 0 100 0 =
      ([Ev.insert 0 100, Ev.clear, Ev.insert 0 100], 2) ∧
    sinkSingle false insOk 0 100 0 = ([Ev.insert 0 100], 1) :=
  ⟨(singleChannel_retry_once insOverflow 0 100 0).1 rfl,
   (singleChannel_retry_once insOk 0 100 0).2 (by decide)⟩

/-- C8: whatever frame ids the mapped memory holds — in particular when they
differ from `startFrameId + i` and missed-frame warnings fire — a streaming
cycle whose polls succeed never aborts: it returns `DEVICE_OK` and
composites and processes every one of the `numFrames` frames of the batch
(the aborting `return ERR_CPX_MISSED_FRAME` is commented out in the
source). -/
theorem mismatch_no_abort (e : LiveEnv)
    (h0 : pollRetries (avail0 e) < maxRetries)
    (h1 : e.dual = true → pollRetries (avail1 e) < maxRetries) :
    (readLiveFrames e).status = DEVICE_OK ∧
    (readLiveFrames e).framesRead = liveBatchSize e ∧
    (readLiveFrames e).comps0.length = liveBatchSize e := by
  cases hd : e.dual
  · rw [readLive_single e hd h0]
    obtain ⟨hs, hf, hc0, -, -⟩ :=
      liveDeliver_fields e (finalRange0 e) emptyRange (framesAvailable0 e)
    exact ⟨hs, by rw [hf]; simp [liveBatchSize, hd], by rw [hc0]; simp [liveBatchSize, hd]⟩
  · rw [readLive_dual e hd h0 (h1 hd)]
    obtain ⟨hs, hf, hc0, -, -⟩ :=
      liveDeliver_fields e (finalRange0 e) (finalRange1 e)
        (min (framesAvailable0 e) (framesAvailable1 e))
    exact ⟨hs, by rw [hf]; simp [liveBatchSize, hd], by rw [hc0]; simp [liveBatchSize, hd]⟩

/-- C8, witness: a single-stream batch of 3 frames where the ids of frames 1
and 2 mismatch (two warnings logged) still completes with `DEVICE_OK` and 3
composited frames. -/
theorem mismatch_no_abort_witness :
    ((readLiveFrames ce8).status = DEVICE_OK ∧
     (readLiveFrames ce8).framesRead = liveBatchSize ce8 ∧
     (readLiveFrames ce8).comps0.length = liveBatchSize ce8) ∧
    (readLiveFrames ce8).w0 = 2 ∧ liveBatchSize ce8 = 3 :=
  ⟨mismatch_no_abort ce8 (by decide) (fun h => absurd h (by decide)),
   by decide, by decide⟩

/-- C9: `StartSequenceAcquisition` with `numImages = 0` sets both streams'
`max_frame_count` to `MAXUINT64 = 2^64 - 1`, and with any `numImages > 0`
(within the range of the 32-bit `long` parameter) it sets both to
`numImages`. -/
theorem sequenceTargets_spec :
    startSequenceTargets 0 = (MAXUINT64, MAXUINT64) ∧
    MAXUINT64 = 2 ^ 64 - 1 ∧
    ∀ n : Int, 0 < n → n < 2 ^ 31 → startSequenceTargets n = (n.toNat, n.toNat) := by
  refine ⟨rfl, rfl, ?_⟩
  intro n hpos hlt
  have hne : n ≠ 0 := by omega
  have hlt64 : n < (2 : Int) ^ 64 := by
    calc n < 2 ^ 31 := hlt
    _ < (2 : Int) ^ 64 := by norm_num
  have hmod : n % (2 : Int) ^ 64 = n := Int.emod_eq_of_lt (le_of_lt hpos) hlt64
  unfold startSequenceTargets maxFrameCountOf toUInt64Nat
  rw [if_neg hne, hmod]

/-- C9, witness: `numImages = 7` sets both targets to 7. -/
theorem sequenceTargets_spec_witness :
    startSequenceTargets 7 = ((7 : Int).toNat, (7 : Int).toNat) :=
  sequenceTargets_spec.2.2 7 (by norm_num) (by norm_num)

/-- C10: with the buffers allocated by `setupBuffers` (2 in dual mode, 1
otherwise), `GetImageBuffer(channel)` returns `nullptr` for every channel
index at or past the buffer count, and for every valid index returns the
pixels of `imgs[channel]` in multi-channel mode and of
`imgs[currentCamera]` otherwise. -/
theorem imageBuffer_bounds (dual mc : Bool) (cur ch : Nat) :
    (setupBuffersCount dual ≤ ch →
      GetImageBufferChannel (setupBuffersCount dual) mc cur ch = none) ∧
    (ch < setupBuffersCount dual →
      GetImageBufferChannel (setupBuffersCount dual) mc cur ch =
        some (if mc then ch else cur)) := by
  have hm1 : (1 + SIZE_T_MOD - 1) % SIZE_T_MOD = 0 := by decide
  have hm2 : (2 + SIZE_T_MOD - 1) % SIZE_T_MOD = 1 := by decide
  cases dual
  · constructor
    · intro h
      have h1 : 0 < ch := h
      show GetImageBufferChannel 1 mc cur ch = none
      unfold GetImageBufferChannel
      rw [hm1, if_pos h1]
    · intro h
      have h1 : ch < 1 := h
      show GetImageBufferChannel 1 mc cur ch = some (if mc then ch else cur)
      unfold GetImageBufferChannel
      rw [hm1, if_neg (by omega)]
      cases mc
      · rfl
      · rfl
  · constructor
    · intro h
      have h1 : 1 < ch := h
      show GetImageBufferChannel 2 mc cur ch = none
      unfold GetImageBufferChannel
      rw [hm2, if_pos h1]
    · intro h
      have h1 : ch < 2 := h
      show GetImageBufferChannel 2 mc cur ch = some (if mc then ch else cur)
      unfold GetImageBufferChannel
      rw [hm2, if_neg (by omega)]
      cases mc
      · rfl
      · rfl

/-- C10, witness: channel 5 of two buffers yields `nullptr`; channel 1 of
two buffers in multi-channel mode yields buffer 1; channel 0 of one buffer
in single-channel mode yields the current camera's buffer. -/
theorem imageBuffer_bounds_witness :
    GetImageBufferChannel (setupBuffersCount true) true 0 5 = none ∧
    GetImageBufferChannel (setupBuffersCount true) true 0 1 = some 1 ∧
    GetImageBufferChannel (setupBuffersCount false) false 0 0 = some 0 :=
  ⟨(imageBuffer_bounds true true 0 5).1 (by decide),
   by simpa using (imageBuffer_bounds true true 0 1).2 (by decide),
   by simpa using (imageBuffer_bounds false false 0 0).2 (by decide)⟩

end Acquire
